import Mathlib

/-!
Verification of the adaptive request coordination layer of the trade API
client (src/services/tradeApiClient.js): request fingerprinting
(generateRequestCacheId over MD5), the per-fingerprint request lock
(getRequestLock / releaseRequestLock), the latency tracker
(setRequestAverageLatency / getRequestAverageLatency), the response cache
(the memory-cache library as used by doRequest), and the doRequest
orchestration itself, including its error normalization and the session
expiry side effect (navigateLogin).

Conventions of the embedding:
- JavaScript numbers that matter here (latencies, averages) are modeled as
  exact rationals; the operations used (addition, division by 2) are exact
  on IEEE doubles in the realistic ranges, so no precision is lost.
- JavaScript objects are insertion-ordered association lists.
- The network is a parameter: a FetchOutcome value says how the one fetch
  of a run would behave (resolve with status and parsed JSON body, reject,
  or resolve with a body that fails to parse).
- Cache entries are modeled without real-time expiry: the claims under
  study are about one request cycle and its immediate successors, within
  the time-to-live window; the recorded ttl of each entry is kept in the
  model state.
-/

set_option maxRecDepth 40000

namespace TradeApi

/-! ### MD5 (RFC 1321), the digest used by createHash("md5") in
generateRequestCacheId.  Words are Nat values kept below 2 ^ 32. -/

namespace Md5

def kTable : List Nat :=
  [0xd76aa478, 0xe8c7b756, 0x242070db, 0xc1bdceee,
   0xf57c0faf, 0x4787c62a, 0xa8304613, 0xfd469501,
   0x698098d8, 0x8b44f7af, 0xffff5bb1, 0x895cd7be,
   0x6b901122, 0xfd987193, 0xa679438e, 0x49b40821,
   0xf61e2562, 0xc040b340, 0x265e5a51, 0xe9b6c7aa,
   0xd62f105d, 0x02441453, 0xd8a1e681, 0xe7d3fbc8,
   0x21e1cde6, 0xc33707d6, 0xf4d50d87, 0x455a14ed,
   0xa9e3e905, 0xfcefa3f8, 0x676f02d9, 0x8d2a4c8a,
   0xfffa3942, 0x8771f681, 0x6d9d6122, 0xfde5380c,
   0xa4beea44, 0x4bdecfa9, 0xf6bb4b60, 0xbebfbc70,
   0x289b7ec6, 0xeaa127fa, 0xd4ef3085, 0x04881d05,
   0xd9d4d039, 0xe6db99e5, 0x1fa27cf8, 0xc4ac5665,
   0xf4292244, 0x432aff97, 0xab9423a7, 0xfc93a039,
   0x655b59c3, 0x8f0ccc92, 0xffeff47d, 0x85845dd1,
   0x6fa87e4f, 0xfe2ce6e0, 0xa3014314, 0x4e0811a1,
   0xf7537e82, 0xbd3af235, 0x2ad7d2bb, 0xeb86d391]

def sTable : List Nat :=
  [7, 12, 17, 22, 7, 12, 17, 22, 7, 12, 17, 22, 7, 12, 17, 22,
   5, 9, 14, 20, 5, 9, 14, 20, 5, 9, 14, 20, 5, 9, 14, 20,
   4, 11, 16, 23, 4, 11, 16, 23, 4, 11, 16, 23, 4, 11, 16, 23,
   6, 10, 15, 21, 6, 10, 15, 21, 6, 10, 15, 21, 6, 10, 15, 21]

def mask32 : Nat := 4294967295

def rotl32 (x n : Nat) : Nat := ((x <<< n) ||| (x >>> (32 - n))) &&& mask32

def leBytes : Nat → Nat → List Nat
  | 0, _ => []
  | n + 1, x => (x % 256) :: leBytes n (x / 256)

def padMessage (msg : List Nat) : List Nat :=
  let len := msg.length
  let zeros := (119 - len % 64) % 64
  msg ++ [0x80] ++ List.replicate zeros 0 ++ leBytes 8 ((len * 8) % 18446744073709551616)

def word (chunk : List Nat) (g : Nat) : Nat :=
  chunk.getD (4 * g) 0 + 256 * chunk.getD (4 * g + 1) 0 +
    65536 * chunk.getD (4 * g + 2) 0 + 16777216 * chunk.getD (4 * g + 3) 0

def roundStep (chunk : List Nat) (st : Nat × Nat × Nat × Nat) (i : Nat) :
    Nat × Nat × Nat × Nat :=
  let (a, b, c, d) := st
  let f :=
    if i < 16 then (b &&& c) ||| ((b ^^^ mask32) &&& d)
    else if i < 32 then (d &&& b) ||| ((d ^^^ mask32) &&& c)
    else if i < 48 then b ^^^ c ^^^ d
    else c ^^^ (b ||| (d ^^^ mask32))
  let g :=
    if i < 16 then i
    else if i < 32 then (5 * i + 1) % 16
    else if i < 48 then (3 * i + 5) % 16
    else (7 * i) % 16
  let t := (f + a + kTable.getD i 0 + word chunk g) &&& mask32
  (d, (b + rotl32 t (sTable.getD i 0)) &&& mask32, b, c)

def processChunk (st : Nat × Nat × Nat × Nat) (chunk : List Nat) :
    Nat × Nat × Nat × Nat :=
  let (a0, b0, c0, d0) := st
  let (a, b, c, d) := (List.range 64).foldl (roundStep chunk) st
  ((a0 + a) &&& mask32, (b0 + b) &&& mask32, (c0 + c) &&& mask32, (d0 + d) &&& mask32)

def chunksGo : Nat → List Nat → List (List Nat)
  | 0, _ => []
  | fuel + 1, l => if l.isEmpty then [] else l.take 64 :: chunksGo fuel (l.drop 64)

def digestWords (msg : List Nat) : Nat × Nat × Nat × Nat :=
  let padded := padMessage msg
  (chunksGo padded.length padded).foldl processChunk
    (0x67452301, 0xefcdab89, 0x98badcfe, 0x10325476)

def hexDigit (n : Nat) : Char :=
  if n < 10 then Char.ofNat (48 + n) else Char.ofNat (87 + n)

def byteHexChars (b : Nat) : List Char := [hexDigit (b / 16), hexDigit (b % 16)]

def wordHexChars (w : Nat) : List Char :=
  ((leBytes 4 w).map byteHexChars).foldr (· ++ ·) []

def utf8EncodeCodePoint (n : Nat) : List Nat :=
  if n < 0x80 then [n]
  else if n < 0x800 then [0xc0 ||| (n >>> 6), 0x80 ||| (n &&& 0x3f)]
  else if n < 0x10000 then
    [0xe0 ||| (n >>> 12), 0x80 ||| ((n >>> 6) &&& 0x3f), 0x80 ||| (n &&& 0x3f)]
  else
    [0xf0 ||| (n >>> 18), 0x80 ||| ((n >>> 12) &&& 0x3f),
     0x80 ||| ((n >>> 6) &&& 0x3f), 0x80 ||| (n &&& 0x3f)]

def utf8Bytes (s : String) : List Nat :=
  s.data.foldr (fun c acc => utf8EncodeCodePoint c.toNat ++ acc) []

def hexDigest (s : String) : String :=
  let (a, b, c, d) := digestWords (utf8Bytes s)
  String.mk (wordHexChars a ++ wordHexChars b ++ wordHexChars c ++ wordHexChars d)

/-- Sanity check of the MD5 embedding against the RFC 1321 test suite. -/
theorem hexDigest_empty : hexDigest "" = "d41d8cd98f00b204e9800998ecf8427e" := by decide

/-- Sanity check of the MD5 embedding against the RFC 1321 test suite. -/
theorem hexDigest_abc : hexDigest "abc" = "900150983cd24fb0d6963f7d28e17f72" := by decide

end Md5

/-! ### JavaScript values

Only the shapes doRequest manipulates are needed: parsed JSON response
bodies, the responseData wrapper object, and property access with the
JavaScript truthiness tests the source relies on.  No definition below
recurses through JsValue, so every function evaluates by kernel
reduction. -/

inductive JsValue where
  | undefined
  | null
  | bool (b : Bool)
  | num (n : Int)
  | str (s : String)
  | arr (elems : List JsValue)
  | obj (fields : List (String × JsValue))

/-- First-match lookup in an insertion-ordered JavaScript object. -/
def lookupField : List (String × JsValue) → String → JsValue
  | [], _ => .undefined
  | (k, v) :: rest, key => if k = key then v else lookupField rest key

/-- Property access v[key]: undefined on non-objects and missing keys.
Access on null or undefined throws in JavaScript; doRequest is modeled so
that the one place this can happen is reported as a TypeError outcome. -/
def getField : JsValue → String → JsValue
  | .obj fields, key => lookupField fields key
  | _, _ => .undefined

/-- JavaScript truthiness, for the if tests of the source. -/
def truthy : JsValue → Bool
  | .undefined => false
  | .null => false
  | .bool b => b
  | .num n => n != 0
  | .str s => s != ""
  | .arr _ => true
  | .obj _ => true

/-- Strict equality test customError.code === 13 from doRequest. -/
def codeIsSessionExpired (customError : JsValue) : Bool :=
  match getField customError "code" with
  | .num n => n == 13
  | _ => false

/-- The values on which a property read throws a TypeError. -/
def isNullish : JsValue → Bool
  | .null => true
  | .undefined => true
  | _ => false

/-! ### Request payloads and their serialization

The payloads this client sends are flat objects of primitive values.  A
payload is an insertion-ordered association list, as a JavaScript object
literal is.  For GET requests doRequest serializes the payload with
URLSearchParams into the query string; for other methods with
JSON.stringify into the body. -/

inductive JsPrim where
  | null
  | bool (b : Bool)
  | num (n : Int)
  | str (s : String)
deriving DecidableEq

abbrev Payload := List (String × JsPrim)

/-- String coercion used by URLSearchParams on property values. -/
def primToString : JsPrim → String
  | .null => "null"
  | .bool true => "true"
  | .bool false => "false"
  | .num n => toString n
  | .str s => s

def upHexDigit (n : Nat) : Char :=
  if n < 10 then Char.ofNat (48 + n) else Char.ofNat (55 + n)

/-- application/x-www-form-urlencoded byte encoding used by
URLSearchParams: alphanumerics and * - . _ kept, space becomes +, other
bytes percent-encoded. -/
def formUrlEncodeByte (b : Nat) : List Char :=
  if (48 ≤ b ∧ b ≤ 57) ∨ (65 ≤ b ∧ b ≤ 90) ∨ (97 ≤ b ∧ b ≤ 122) ∨
      b = 42 ∨ b = 45 ∨ b = 46 ∨ b = 95 then
    [Char.ofNat b]
  else if b = 32 then ['+']
  else ['%', upHexDigit (b / 16), upHexDigit (b % 16)]

def formUrlEncode (s : String) : String :=
  String.mk ((Md5.utf8Bytes s).foldr (fun b acc => formUrlEncodeByte b ++ acc) [])

/-- The toString of new URLSearchParams(payload). -/
def urlSearchParamsString (payload : Payload) : String :=
  String.intercalate "&"
    (payload.map fun kv => formUrlEncode kv.1 ++ "=" ++ formUrlEncode (primToString kv.2))

def jsonEscapeChar (c : Char) : List Char :=
  if c = '"' then ['\\', '"']
  else if c = '\\' then ['\\', '\\']
  else if c = '\n' then ['\\', 'n']
  else if c = '\t' then ['\\', 't']
  else if c = '\r' then ['\\', 'r']
  else [c]

def jsonQuote (s : String) : String :=
  "\"" ++ String.mk (s.data.foldr (fun c acc => jsonEscapeChar c ++ acc) []) ++ "\""

def primJson : JsPrim → String
  | .null => "null"
  | .bool true => "true"
  | .bool false => "false"
  | .num n => toString n
  | .str s => jsonQuote s

/-- JSON.stringify of a flat payload object (insertion order). -/
def jsonStringifyPayload (payload : Payload) : String :=
  "\x7b" ++
    String.intercalate ","
      (payload.map fun kv => jsonQuote kv.1 ++ ":" ++ primJson kv.2) ++
    "\x7d"

/-- JSON.stringify of the payload argument, which may be null. -/
def jsonStringifyOpt : Option Payload → String
  | none => "null"
  | some p => jsonStringifyPayload p

/-! ### Client state and the coordination primitives

TradeApiClient holds two module-lifetime tables keyed by request cache id:
requestAverageLatency (number per key) and requestLock (boolean per key,
absent when free).  Both are plain JavaScript objects; they are modeled as
association lists with first-match lookup, updated in place. -/

abbrev LatencyMap := List (String × Rat)

/-- Replace-or-append update of a JavaScript object property. -/
def alistSet {α : Type} : List (String × α) → String → α → List (String × α)
  | [], k, v => [(k, v)]
  | (k0, v0) :: rest, k, v =>
      if k0 = k then (k, v) :: rest else (k0, v0) :: alistSet rest k v

/-- Truthy read of this.requestAverageLatency[cacheId]: a stored 0 reads
as absent, exactly as the source if tests treat it. -/
def latencyTruthy (m : LatencyMap) (cacheId : String) : Option Rat :=
  match List.lookup cacheId m with
  | some v => if v == 0 then none else some v
  | none => none

/-- setRequestAverageLatency (tradeApiClient.js lines 266-280): first
observation is stored as is; later observations are smoothed as
(currentAverage + latest) / 2 plus a fixed 500 ms tolerance. -/
def setRequestAverageLatency (m : LatencyMap) (cacheId : String)
    (latencyMillisec : Rat) : LatencyMap :=
  match latencyTruthy m cacheId with
  | some currentAverage =>
      let tolerance : Rat := 500
      let newAverage := (currentAverage + latencyMillisec) / 2
      alistSet m cacheId (newAverage + tolerance)
  | none => alistSet m cacheId latencyMillisec

/-- getRequestAverageLatency (lines 290-295): the stored average, else a
5000 ms default (the expression average or 5000). -/
def getRequestAverageLatency (m : LatencyMap) (cacheId : String) : Rat :=
  match latencyTruthy m cacheId with
  | some v => v
  | none => 5000

/-- getRequestLock (lines 228-241): check-and-set on requestLock, in one
synchronous step.  Returns whether the lock was acquired, with the new
lock table. -/
def getRequestLock (locks : List String) (cacheId : String) : Bool × List String :=
  if locks.contains cacheId then (false, locks)
  else (true, cacheId :: locks)

/-- releaseRequestLock (lines 251-255): delete the key when present. -/
def releaseRequestLock (locks : List String) (cacheId : String) : List String :=
  if locks.contains cacheId then locks.erase cacheId else locks

/-! ### The response cache

The memory-cache library as doRequest uses it: put(key, value, ttl)
overwrites unconditionally, get returns the stored value or null.  Expiry
is real-time based in the library; the claims under study stay inside the
ttl window of each entry, so entries here do not lapse, and the ttl passed
to put is recorded in the entry. -/

abbrev ResponseCache := List (String × (JsValue × Rat))

def cacheGet (cache : ResponseCache) (key : String) : JsValue :=
  match List.lookup key cache with
  | some entry => entry.1
  | none => .null

def cachePut (cache : ResponseCache) (key : String) (value : JsValue)
    (ttl : Rat) : ResponseCache :=
  alistSet cache key (value, ttl)

/-- generateRequestCacheId (lines 209-214): endpoint path concatenated
with the MD5 hex digest of the serialized payload. -/
def generateRequestCacheId (endpointPath payload : String) : String :=
  endpointPath ++ "-" ++ Md5.hexDigest payload

structure TradeApiClient where
  baseUrlv1 : String
  baseUrlv2 : String
  token : Option String
  requestAverageLatency : LatencyMap
  requestLock : List String

/-- Base url selection of doRequest (lines 353-361): apiVersion 1 is the
old api, 0 strips the /new_api suffix from the v2 url, anything else is
the v2 url. -/
def requestBaseUrl (client : TradeApiClient) (apiVersion : Nat) : String :=
  if apiVersion = 1 then client.baseUrlv1
  else if apiVersion = 0 then (client.baseUrlv2.splitOn "/new_api").headD ""
  else client.baseUrlv2

/-- Request url building (lines 363, 381-387): GET payloads go through
URLSearchParams into the query string when the payload is truthy. -/
def requestUrlOf (client : TradeApiClient) (endpointPath : String)
    (payload : Option Payload) (method : String) (apiVersion : Nat) : String :=
  let base := requestBaseUrl client apiVersion ++ endpointPath
  if method = "GET" then
    match payload with
    | some p => base ++ "?" ++ urlSearchParamsString p
    | none => base
  else base

/-- options.body (line 386): JSON body for non-GET methods, null for GET. -/
def requestBodyOf (payload : Option Payload) (method : String) : Option String :=
  if method = "GET" then none else some (jsonStringifyOpt payload)

/-- The cache id doRequest computes (line 389):
generateRequestCacheId(requestUrl, options.body or empty string). -/
def requestCacheIdOf (client : TradeApiClient) (endpointPath : String)
    (payload : Option Payload) (method : String) (apiVersion : Nat) : String :=
  generateRequestCacheId (requestUrlOf client endpointPath payload method apiVersion)
    ((requestBodyOf payload method).getD "")

/-! ### One doRequest cycle

The network is a parameter.  FetchOutcome fixes what the single fetch of
the run would do; elapsed times are the Date.now differences the source
measures. -/

inductive FetchOutcome where
  | ok (status : Nat) (body : JsValue) (elapsedMillis : Rat)
  | jsonRejects (status : Nat) (errMessage : String) (elapsedMillis : Rat)
  | rejects (errMessage : String)

/-- How one doRequest call ends.  waitsOnCache models the suspension
inside resolveFromCache (lines 321-339): the poll loop resolves only when
a truthy cache entry appears, so with no concurrent writer the promise
stays pending.  typeError models the property read responseData.error
thrown on a null body. -/
inductive RunOutcome where
  | resolved (value : JsValue)
  | rejected (error : JsValue)
  | typeError
  | waitsOnCache

structure RunResult where
  outcome : RunOutcome
  requestAverageLatency : LatencyMap
  requestLock : List String
  cache : ResponseCache
  netCallCount : Nat
  navigateLoginCount : Nat

/-- Error normalization (line 434): customError is
responseData.error.error when truthy, else responseData.error itself. -/
def normalizeError (responseDataError : JsValue) : JsValue :=
  if truthy (getField responseDataError "error") then getField responseDataError "error"
  else responseDataError

/-- Tail of doRequest (lines 433-443): throw the normalized error when
responseData.error is truthy, invoking navigateLogin first on code 13;
otherwise resolve with responseData. -/
def finishRequest (responseData : JsValue) (lat : LatencyMap)
    (locks : List String) (cache : ResponseCache) (netCalls : Nat) : RunResult :=
  if isNullish responseData then
    { outcome := .typeError, requestAverageLatency := lat, requestLock := locks,
      cache := cache, netCallCount := netCalls, navigateLoginCount := 0 }
  else if truthy (getField responseData "error") then
    { outcome := .rejected (normalizeError (getField responseData "error")),
      requestAverageLatency := lat, requestLock := locks, cache := cache,
      netCallCount := netCalls,
      navigateLoginCount :=
        if codeIsSessionExpired (normalizeError (getField responseData "error")) then 1
        else 0 }
  else
    { outcome := .resolved responseData, requestAverageLatency := lat,
      requestLock := locks, cache := cache, netCallCount := netCalls,
      navigateLoginCount := 0 }

/-- The try/catch body of doRequest (lines 406-431) after the fetch is
issued.  A rejecting fetch jumps to the catch before the latency update;
a rejecting response.json() jumps after it; in both catch paths the GET
cache put and lock release are skipped, since the source has no finally.
On a parsed response, non 200/201 statuses wrap the body in an error
field, and for GET the responseData (error or not) is cached with the
current average latency as ttl and the lock is released. -/
def performFetch (cacheId : String) (isGet : Bool) (outcome : FetchOutcome)
    (lat : LatencyMap) (locks : List String) (cache : ResponseCache) : RunResult :=
  match outcome with
  | .rejects msg =>
      finishRequest (.obj [("error", .str msg)]) lat locks cache 1
  | .jsonRejects _ msg elapsed =>
      finishRequest (.obj [("error", .str msg)])
        (setRequestAverageLatency lat cacheId elapsed) locks cache 1
  | .ok status body elapsed =>
      let lat1 := setRequestAverageLatency lat cacheId elapsed
      let responseData :=
        if status = 200 ∨ status = 201 then body else .obj [("error", body)]
      if isGet then
        let cacheTTL := getRequestAverageLatency lat1 cacheId
        finishRequest responseData lat1 (releaseRequestLock locks cacheId)
          (cachePut cache cacheId responseData cacheTTL) 1
      else
        finishRequest responseData lat1 locks cache 1

/-- One call to doRequest (lines 353-444).  For GET: a truthy cached
response returns immediately; otherwise the lock is tried, and a caller
that fails to acquire it suspends on the cache poll.  The authorization
header (this.token or the token argument) only affects the outbound
headers and is not part of the coordination state. -/
def doRequest (client : TradeApiClient) (cache : ResponseCache)
    (endpointPath : String) (payload : Option Payload) (method : String)
    (apiVersion : Nat) (outcome : FetchOutcome) : RunResult :=
  let cacheId := requestCacheIdOf client endpointPath payload method apiVersion
  if method = "GET" then
    let cacheResponseData := cacheGet cache cacheId
    if truthy cacheResponseData then
      { outcome := .resolved cacheResponseData,
        requestAverageLatency := client.requestAverageLatency,
        requestLock := client.requestLock, cache := cache,
        netCallCount := 0, navigateLoginCount := 0 }
    else
      let acq := getRequestLock client.requestLock cacheId
      if acq.1 then
        performFetch cacheId true outcome client.requestAverageLatency acq.2 cache
      else
        { outcome := .waitsOnCache,
          requestAverageLatency := client.requestAverageLatency,
          requestLock := acq.2, cache := cache,
          netCallCount := 0, navigateLoginCount := 0 }
  else
    performFetch (requestCacheIdOf client endpointPath payload method apiVersion)
      false outcome client.requestAverageLatency client.requestLock cache

/-- One tick of the resolveFromCache poll loop (lines 324-331): resolve
with the cached value when it is truthy, otherwise keep waiting. -/
def resolveFromCachePoll (cache : ResponseCache) (cacheId : String) : Option JsValue :=
  let responseData := cacheGet cache cacheId
  if truthy responseData then some responseData else none

/-! ### Cooperative two-caller model

Two concurrent GET calls to doRequest for the same cache id, under the
cooperative scheduler of the JavaScript runtime.  Each call runs
synchronously from invocation to its first await, so the atomic steps of
one call are: the ready step (cache check, then lock check-and-set, then
either issuing the fetch or entering the poll loop), the fetch completion
step (latency recording, then awaiting response.json), the parse
completion step (responseData construction, cache put, lock release,
settle), and poll ticks.  A schedule is the list of which task runs its
next enabled step. -/

inductive TaskPhase where
  | ready
  | fetching
  | parsing
  | polling
  | settledOk (value : JsValue)
  | settledErr (error : JsValue)
  | settledTypeError

def TaskPhase.inFlight : TaskPhase → Bool
  | .fetching => true
  | .parsing => true
  | _ => false

def TaskPhase.isDone : TaskPhase → Bool
  | .settledOk _ => true
  | .settledErr _ => true
  | .settledTypeError => true
  | _ => false

structure SharedState where
  requestAverageLatency : LatencyMap
  requestLock : List String
  cache : ResponseCache

/-- Settling with a parsed responseData, as finishRequest does. -/
def settleResponse (responseData : JsValue) : TaskPhase :=
  if isNullish responseData then .settledTypeError
  else if truthy (getField responseData "error") then
    .settledErr (normalizeError (getField responseData "error"))
  else .settledOk responseData

/-- One enabled step of one GET task.  Returns the new phase, the new
shared state, and whether this step issued a network call. -/
def taskStep (cacheId : String) (outcome : FetchOutcome) (sh : SharedState)
    (ph : TaskPhase) : TaskPhase × SharedState × Bool :=
  match ph with
  | .ready =>
      let cacheResponseData := cacheGet sh.cache cacheId
      if truthy cacheResponseData then (.settledOk cacheResponseData, sh, false)
      else
        let acq := getRequestLock sh.requestLock cacheId
        if acq.1 then
          (.fetching, { sh with requestLock := acq.2 }, true)
        else
          (.polling, { sh with requestLock := acq.2 }, false)
  | .fetching =>
      match outcome with
      | .rejects msg => (.settledErr (.str msg), sh, false)
      | .jsonRejects _ _ elapsed =>
          (.parsing,
           { sh with requestAverageLatency :=
               setRequestAverageLatency sh.requestAverageLatency cacheId elapsed },
           false)
      | .ok _ _ elapsed =>
          (.parsing,
           { sh with requestAverageLatency :=
               setRequestAverageLatency sh.requestAverageLatency cacheId elapsed },
           false)
  | .parsing =>
      match outcome with
      | .rejects msg => (.settledErr (.str msg), sh, false)
      | .jsonRejects _ msg _ => (.settledErr (.str msg), sh, false)
      | .ok status body _ =>
          let responseData :=
            if status = 200 ∨ status = 201 then body else .obj [("error", body)]
          let cacheTTL := getRequestAverageLatency sh.requestAverageLatency cacheId
          (settleResponse responseData,
           { requestAverageLatency := sh.requestAverageLatency,
             requestLock := releaseRequestLock sh.requestLock cacheId,
             cache := cachePut sh.cache cacheId responseData cacheTTL },
           false)
  | .polling =>
      match resolveFromCachePoll sh.cache cacheId with
      | some v => (.settledOk v, sh, false)
      | none => (.polling, sh, false)
  | other => (other, sh, false)

structure SysState where
  shared : SharedState
  taskA : TaskPhase
  taskB : TaskPhase
  netCalls : Nat

/-- Scheduler step: run the next enabled step of the chosen task. -/
def sysStep (cacheId : String) (oA oB : FetchOutcome) (s : SysState)
    (pickA : Bool) : SysState :=
  if pickA then
    let r := taskStep cacheId oA s.shared s.taskA
    { shared := r.2.1, taskA := r.1, taskB := s.taskB,
      netCalls := s.netCalls + (if r.2.2 then 1 else 0) }
  else
    let r := taskStep cacheId oB s.shared s.taskB
    { shared := r.2.1, taskA := s.taskA, taskB := r.1,
      netCalls := s.netCalls + (if r.2.2 then 1 else 0) }

def sysRun (cacheId : String) (oA oB : FetchOutcome) (s : SysState)
    (choices : List Bool) : SysState :=
  choices.foldl (sysStep cacheId oA oB) s

/-- Fresh state: no latency records, no locks, empty cache, both calls
invoked but neither yet run. -/
def initSys : SysState :=
  { shared := { requestAverageLatency := [], requestLock := [], cache := [] },
    taskA := .ready, taskB := .ready, netCalls := 0 }

/-! ### Basic facts about the association list update -/

theorem lookup_alistSet_self {α : Type} (m : List (String × α)) (k : String) (v : α) :
    List.lookup k (alistSet m k v) = some v := by
  induction m with
  | nil => simp [alistSet, List.lookup]
  | cons hd tl ih =>
      obtain ⟨k0, v0⟩ := hd
      by_cases h : k0 = k
      · simp [alistSet, h, List.lookup]
      · have hb : (k == k0) = false := beq_eq_false_iff_ne.mpr (Ne.symm h)
        simp [alistSet, h, List.lookup, hb, ih]

/-! ### Latency tracker claims -/

/-- C4 (amended): starting with no record for the key, after a first
completed call with a nonzero latency L1 the current ttl is L1, and after
a second completed call with latency L2 it is (L1 + L2) / 2 + 500, the
tolerance being the fixed 500 ms of the source.  (A first latency of
exactly 0 instead leaves the default in force, see the counterexample.) -/
theorem latency_ttl_learning (m : LatencyMap) (k : String) (L1 L2 : Rat)
    (hnone : List.lookup k m = none) (h1 : L1 ≠ 0) (hp1 : 0 ≤ L1) (hp2 : 0 ≤ L2) :
    getRequestAverageLatency (setRequestAverageLatency m k L1) k = L1 ∧
    getRequestAverageLatency
        (setRequestAverageLatency (setRequestAverageLatency m k L1) k L2) k =
      (L1 + L2) / 2 + 500 := by
  have hs1 : setRequestAverageLatency m k L1 = alistSet m k L1 := by
    simp [setRequestAverageLatency, latencyTruthy, hnone]
  have hl1 : latencyTruthy (alistSet m k L1) k = some L1 := by
    simp [latencyTruthy, lookup_alistSet_self, h1]
  have havg : (0 : Rat) < (L1 + L2) / 2 + 500 := by
    have : (0 : Rat) ≤ (L1 + L2) / 2 := by positivity
    linarith
  constructor
  · rw [hs1]
    simp [getRequestAverageLatency, hl1]
  · rw [hs1]
    simp only [setRequestAverageLatency, hl1]
    simp [getRequestAverageLatency, latencyTruthy, lookup_alistSet_self, ne_of_gt havg]

/-- C4 witness: latencies 300 then 500 give ttl 300 then 900. -/
theorem latency_ttl_learning_witness :
    getRequestAverageLatency (setRequestAverageLatency [] "k" 300) "k" = 300 ∧
    getRequestAverageLatency
        (setRequestAverageLatency (setRequestAverageLatency [] "k" 300) "k" 500) "k" = 900 := by
  have h := latency_ttl_learning [] "k" 300 500 rfl (by norm_num) (by norm_num) (by norm_num)
  refine ⟨h.1, ?_⟩
  rw [h.2]
  norm_num

/-- C4 counterexample: after a first completed call with observed latency
0, the current ttl is the 5000 default, not the observed latency. -/
theorem latency_ttl_learning_zero_counterexample :
    getRequestAverageLatency (setRequestAverageLatency [] "key" 0) "key" = 5000 ∧
    ¬ getRequestAverageLatency (setRequestAverageLatency [] "key" 0) "key" = 0 := by
  constructor
  · rfl
  · intro h
    simp [getRequestAverageLatency, setRequestAverageLatency, latencyTruthy, alistSet,
      List.lookup] at h

/-- C8 (amended): with no record the current ttl is the 5000 ms default;
with a nonzero record it is the stored running average; a stored average
of exactly 0 also yields the default, because the source reads the table
with a truthiness test. -/
theorem current_ttl_default_amended :
    (∀ m k, List.lookup k m = none → getRequestAverageLatency m k = 5000) ∧
    (∀ m k v, List.lookup k m = some v → v ≠ 0 → getRequestAverageLatency m k = v) ∧
    (∀ m k, List.lookup k m = some 0 → getRequestAverageLatency m k = 5000) := by
  refine ⟨?_, ?_, ?_⟩
  · intro m k h
    simp [getRequestAverageLatency, latencyTruthy, h]
  · intro m k v h hv
    simp [getRequestAverageLatency, latencyTruthy, h, hv]
  · intro m k h
    simp [getRequestAverageLatency, latencyTruthy, h]

/-- C8 witness: default on an empty table, stored average on a nonzero
record. -/
theorem current_ttl_default_amended_witness :
    getRequestAverageLatency [] "a" = 5000 ∧
    getRequestAverageLatency [("a", (700 : Rat))] "a" = 700 := by
  refine ⟨current_ttl_default_amended.1 [] "a" rfl, ?_⟩
  exact current_ttl_default_amended.2.1 [("a", (700 : Rat))] "a" 700 rfl (by norm_num)

/-- C8 counterexample: a key with a record whose stored running average is
0 does not get that stored average back from getRequestAverageLatency. -/
theorem current_ttl_stored_record_counterexample :
    List.lookup "p" (setRequestAverageLatency [] "p" 0) = some 0 ∧
    ¬ getRequestAverageLatency (setRequestAverageLatency [] "p" 0) "p" = 0 := by
  constructor
  · rfl
  · intro h
    simp [getRequestAverageLatency, setRequestAverageLatency, latencyTruthy, alistSet,
      List.lookup] at h

/-- C10: a stored latency record of 0 is falsy, so the current ttl falls
back to the 5000 default, and the next recorded latency is stored as a
first observation rather than averaged with tolerance. -/
theorem zero_latency_record_behavior (m : LatencyMap) (k : String) (L2 : Rat)
    (h : List.lookup k m = some 0) :
    getRequestAverageLatency m k = 5000 ∧
    List.lookup k (setRequestAverageLatency m k L2) = some L2 := by
  have ht : latencyTruthy m k = none := by simp [latencyTruthy, h]
  constructor
  · simp [getRequestAverageLatency, ht]
  · simp [setRequestAverageLatency, ht, lookup_alistSet_self]

/-- C10 witness: a record holding 0 yields ttl 5000, and recording 250
overwrites the record with 250 as a fresh first observation. -/
theorem zero_latency_record_behavior_witness :
    getRequestAverageLatency (setRequestAverageLatency [] "z" 0) "z" = 5000 ∧
    List.lookup "z"
        (setRequestAverageLatency (setRequestAverageLatency [] "z" 0) "z" 250) =
      some 250 :=
  zero_latency_record_behavior (setRequestAverageLatency [] "z" 0) "z" 250 rfl

/-! ### Scenario lemmas for one doRequest cycle -/

/-- A concrete client instance for evaluated scenarios. -/
def sampleClient : TradeApiClient :=
  { baseUrlv1 := "https://api.zignaly.com/fe"
    baseUrlv2 := "https://api.zignaly.com/new_api"
    token := none
    requestAverageLatency := []
    requestLock := [] }

theorem cacheGet_cachePut_self (c : ResponseCache) (k : String) (v : JsValue) (t : Rat) :
    cacheGet (cachePut c k v t) k = v := by
  simp [cacheGet, cachePut, lookup_alistSet_self]

theorem releaseRequestLock_cons (l : List String) (k : String) :
    releaseRequestLock (k :: l) k = l := by
  simp [releaseRequestLock, List.contains_cons]

/-- A GET doRequest on a cache miss with a free lock performs the fetch,
holding the lock for the cycle. -/
theorem doRequest_get_fetch (client : TradeApiClient) (cache : ResponseCache)
    (ep : String) (p : Option Payload) (apiV : Nat) (o : FetchOutcome)
    (hmiss : truthy (cacheGet cache (requestCacheIdOf client ep p "GET" apiV)) = false)
    (hfree : client.requestLock.contains (requestCacheIdOf client ep p "GET" apiV) = false) :
    doRequest client cache ep p "GET" apiV o =
      performFetch (requestCacheIdOf client ep p "GET" apiV) true o
        client.requestAverageLatency
        (requestCacheIdOf client ep p "GET" apiV :: client.requestLock) cache := by
  have hfree2 : requestCacheIdOf client ep p "GET" apiV ∉ client.requestLock := by
    simpa using hfree
  simp [doRequest, hmiss, getRequestLock, hfree2]

/-- A GET doRequest on a cache miss with the lock already held suspends on
the cache poll and does not touch the shared state. -/
theorem doRequest_get_locked (client : TradeApiClient) (cache : ResponseCache)
    (ep : String) (p : Option Payload) (apiV : Nat) (o : FetchOutcome)
    (hmiss : truthy (cacheGet cache (requestCacheIdOf client ep p "GET" apiV)) = false)
    (hheld : client.requestLock.contains (requestCacheIdOf client ep p "GET" apiV) = true) :
    doRequest client cache ep p "GET" apiV o =
      { outcome := .waitsOnCache,
        requestAverageLatency := client.requestAverageLatency,
        requestLock := client.requestLock, cache := cache,
        netCallCount := 0, navigateLoginCount := 0 } := by
  have hheld2 : requestCacheIdOf client ep p "GET" apiV ∈ client.requestLock := by
    simpa using hheld
  simp [doRequest, hmiss, getRequestLock, hheld2]

/-- A non-GET doRequest goes straight to the fetch: no cache read, no
lock. -/
theorem doRequest_non_get (client : TradeApiClient) (cache : ResponseCache)
    (ep : String) (p : Option Payload) (method : String) (apiV : Nat)
    (o : FetchOutcome) (hm : ¬ method = "GET") :
    doRequest client cache ep p method apiV o =
      performFetch (requestCacheIdOf client ep p method apiV) false o
        client.requestAverageLatency client.requestLock cache := by
  simp [doRequest, hm]

/-- finishRequest rejects with the navigateLogin side effect exactly when
the normalized error it throws carries code 13. -/
theorem finishRequest_rejected_nav (rd : JsValue) (lat : LatencyMap)
    (locks : List String) (ca : ResponseCache) (n : Nat) (err : JsValue)
    (h : (finishRequest rd lat locks ca n).outcome = .rejected err) :
    (finishRequest rd lat locks ca n).navigateLoginCount =
      if codeIsSessionExpired err then 1 else 0 := by
  by_cases h1 : isNullish rd = true
  · simp [finishRequest, h1] at h
  · by_cases h2 : truthy (getField rd "error") = true
    · have hout : (finishRequest rd lat locks ca n).outcome =
          .rejected (normalizeError (getField rd "error")) := by
        simp [finishRequest, h1, h2]
      rw [hout] at h
      simp only [RunOutcome.rejected.injEq] at h
      subst h
      simp [finishRequest, h1, h2]
    · simp [finishRequest, h1, h2] at h

/-- performFetch inherits the finishRequest characterization of the
session expiry side effect. -/
theorem performFetch_rejected_nav (cacheId : String) (isGet : Bool)
    (o : FetchOutcome) (lat : LatencyMap) (locks : List String)
    (ca : ResponseCache) (err : JsValue)
    (h : (performFetch cacheId isGet o lat locks ca).outcome = .rejected err) :
    (performFetch cacheId isGet o lat locks ca).navigateLoginCount =
      if codeIsSessionExpired err then 1 else 0 := by
  cases o with
  | rejects msg =>
      simp only [performFetch] at h ⊢
      exact finishRequest_rejected_nav _ _ _ _ _ _ h
  | jsonRejects s msg e =>
      simp only [performFetch] at h ⊢
      exact finishRequest_rejected_nav _ _ _ _ _ _ h
  | ok s b e =>
      cases isGet <;>
        · simp only [performFetch, Bool.false_eq_true, if_false, if_true] at h ⊢
          exact finishRequest_rejected_nav _ _ _ _ _ _ h

/-- Any doRequest run that rejects invokes navigateLogin once when the
thrown normalized error carries code 13 and not at all otherwise. -/
theorem doRequest_rejected_nav (client : TradeApiClient) (cache : ResponseCache)
    (ep : String) (p : Option Payload) (method : String) (apiV : Nat)
    (o : FetchOutcome) (err : JsValue)
    (h : (doRequest client cache ep p method apiV o).outcome = .rejected err) :
    (doRequest client cache ep p method apiV o).navigateLoginCount =
      if codeIsSessionExpired err then 1 else 0 := by
  by_cases hm : method = "GET"
  · subst hm
    by_cases hmiss : truthy (cacheGet cache (requestCacheIdOf client ep p "GET" apiV)) = true
    · simp [doRequest, hmiss] at h
    · by_cases hheld :
          client.requestLock.contains (requestCacheIdOf client ep p "GET" apiV) = true
      · rw [doRequest_get_locked client cache ep p apiV o (Bool.eq_false_iff.mpr hmiss) hheld] at h
        simp at h
      · rw [doRequest_get_fetch client cache ep p apiV o (Bool.eq_false_iff.mpr hmiss)
          (Bool.eq_false_iff.mpr hheld)] at h ⊢
        exact performFetch_rejected_nav _ _ _ _ _ _ _ h
  · rw [doRequest_non_get client cache ep p method apiV o hm] at h ⊢
    exact performFetch_rejected_nav _ _ _ _ _ _ _ h

/-- C7: a doRequest run whose rejection carries the normalized error with
code 13 invokes the navigateLogin session expiry side effect exactly
once, in addition to rejecting with that error. -/
theorem session_expiry_side_effect_once (client : TradeApiClient)
    (cache : ResponseCache) (ep : String) (p : Option Payload) (method : String)
    (apiV : Nat) (o : FetchOutcome) (err : JsValue)
    (hrej : (doRequest client cache ep p method apiV o).outcome = .rejected err)
    (h13 : codeIsSessionExpired err = true) :
    (doRequest client cache ep p method apiV o).navigateLoginCount = 1 := by
  rw [doRequest_rejected_nav client cache ep p method apiV o err hrej, h13]
  rfl

/-- The responseData value doRequest holds when reaching its error check,
as a function of the fetch outcome (lines 364, 412-417, 429-431). -/
def responseDataOf : FetchOutcome → JsValue
  | .rejects msg => .obj [("error", .str msg)]
  | .jsonRejects _ msg _ => .obj [("error", .str msg)]
  | .ok status body _ =>
      if status = 200 ∨ status = 201 then body else .obj [("error", body)]

theorem finishRequest_outcome_eq (rd : JsValue) (lat1 : LatencyMap)
    (locks1 : List String) (ca1 : ResponseCache) (n1 : Nat) (lat2 : LatencyMap)
    (locks2 : List String) (ca2 : ResponseCache) (n2 : Nat) :
    (finishRequest rd lat1 locks1 ca1 n1).outcome =
      (finishRequest rd lat2 locks2 ca2 n2).outcome := by
  simp only [finishRequest]
  split_ifs <;> rfl

theorem performFetch_outcome (cacheId : String) (isGet : Bool) (o : FetchOutcome)
    (lat : LatencyMap) (locks : List String) (ca : ResponseCache) :
    (performFetch cacheId isGet o lat locks ca).outcome =
      (finishRequest (responseDataOf o) [] [] [] 1).outcome := by
  cases o <;> cases isGet <;>
    · simp only [performFetch, responseDataOf, Bool.false_eq_true, if_false, if_true]
      exact finishRequest_outcome_eq _ _ _ _ _ _ _ _ _

/-- Any doRequest run that reaches the network resolves or rejects
exactly as the error check on its responseData dictates. -/
theorem doRequest_performs_outcome (client : TradeApiClient) (cache : ResponseCache)
    (ep : String) (p : Option Payload) (method : String) (apiV : Nat) (o : FetchOutcome)
    (hpre : method = "GET" →
      truthy (cacheGet cache (requestCacheIdOf client ep p method apiV)) = false ∧
      client.requestLock.contains (requestCacheIdOf client ep p method apiV) = false) :
    (doRequest client cache ep p method apiV o).outcome =
      (finishRequest (responseDataOf o) [] [] [] 1).outcome := by
  by_cases hm : method = "GET"
  · subst hm
    rw [doRequest_get_fetch client cache ep p apiV o (hpre rfl).1 (hpre rfl).2]
    exact performFetch_outcome _ _ _ _ _ _
  · rw [doRequest_non_get client cache ep p method apiV o hm]
    exact performFetch_outcome _ _ _ _ _ _

theorem isNullish_of_truthy (v : JsValue) (h : truthy v = true) :
    isNullish v = false := by
  cases v <;> simp_all [truthy, isNullish]

theorem isNullish_of_field_truthy (v : JsValue) (k : String)
    (h : truthy (getField v k) = true) : isNullish v = false := by
  cases v <;> simp_all [getField, truthy, isNullish]

/-- C6 (amended): for runs that reach the network.  A rejecting fetch or a
rejecting body parse with a nonempty message rejects with that message
string; a parsed 200/201 with a truthy body and no truthy error field
resolves with the body; a parsed 200/201 whose body carries a truthy
error field rejects with the normalized error; a parsed non-success
status with a truthy body rejects with the normalized error (the inner
error object, hence the backend code, when the body nests one).  A falsy
parsed body escapes this discipline, see the counterexample. -/
theorem reject_resolve_amended :
    (∀ (client : TradeApiClient) (cache : ResponseCache) (ep : String)
        (p : Option Payload) (method : String) (apiV : Nat) (msg : String),
      (method = "GET" →
        truthy (cacheGet cache (requestCacheIdOf client ep p method apiV)) = false ∧
        client.requestLock.contains (requestCacheIdOf client ep p method apiV) = false) →
      ¬ msg = "" →
      (doRequest client cache ep p method apiV (.rejects msg)).outcome =
        .rejected (.str msg)) ∧
    (∀ (client : TradeApiClient) (cache : ResponseCache) (ep : String)
        (p : Option Payload) (method : String) (apiV : Nat) (s : Nat) (msg : String) (e : Rat),
      (method = "GET" →
        truthy (cacheGet cache (requestCacheIdOf client ep p method apiV)) = false ∧
        client.requestLock.contains (requestCacheIdOf client ep p method apiV) = false) →
      ¬ msg = "" →
      (doRequest client cache ep p method apiV (.jsonRejects s msg e)).outcome =
        .rejected (.str msg)) ∧
    (∀ (client : TradeApiClient) (cache : ResponseCache) (ep : String)
        (p : Option Payload) (method : String) (apiV : Nat) (s : Nat) (b : JsValue) (e : Rat),
      (method = "GET" →
        truthy (cacheGet cache (requestCacheIdOf client ep p method apiV)) = false ∧
        client.requestLock.contains (requestCacheIdOf client ep p method apiV) = false) →
      s = 200 ∨ s = 201 → truthy b = true → truthy (getField b "error") = false →
      (doRequest client cache ep p method apiV (.ok s b e)).outcome = .resolved b) ∧
    (∀ (client : TradeApiClient) (cache : ResponseCache) (ep : String)
        (p : Option Payload) (method : String) (apiV : Nat) (s : Nat) (b : JsValue) (e : Rat),
      (method = "GET" →
        truthy (cacheGet cache (requestCacheIdOf client ep p method apiV)) = false ∧
        client.requestLock.contains (requestCacheIdOf client ep p method apiV) = false) →
      s = 200 ∨ s = 201 → truthy (getField b "error") = true →
      (doRequest client cache ep p method apiV (.ok s b e)).outcome =
        .rejected (normalizeError (getField b "error"))) ∧
    (∀ (client : TradeApiClient) (cache : ResponseCache) (ep : String)
        (p : Option Payload) (method : String) (apiV : Nat) (s : Nat) (b : JsValue) (e : Rat),
      (method = "GET" →
        truthy (cacheGet cache (requestCacheIdOf client ep p method apiV)) = false ∧
        client.requestLock.contains (requestCacheIdOf client ep p method apiV) = false) →
      ¬ (s = 200 ∨ s = 201) → truthy b = true →
      (doRequest client cache ep p method apiV (.ok s b e)).outcome =
        .rejected (normalizeError b)) := by
  refine ⟨?_, ?_, ?_, ?_, ?_⟩
  · intro client cache ep p method apiV msg hpre hmsg
    rw [doRequest_performs_outcome client cache ep p method apiV _ hpre]
    simp [responseDataOf, finishRequest, isNullish, getField, lookupField, truthy,
      normalizeError, bne_iff_ne, hmsg]
  · intro client cache ep p method apiV s msg e hpre hmsg
    rw [doRequest_performs_outcome client cache ep p method apiV _ hpre]
    simp [responseDataOf, finishRequest, isNullish, getField, lookupField, truthy,
      normalizeError, bne_iff_ne, hmsg]
  · intro client cache ep p method apiV s b e hpre hst hb herr
    rw [doRequest_performs_outcome client cache ep p method apiV _ hpre]
    simp [responseDataOf, hst, finishRequest, isNullish_of_truthy b hb, herr]
  · intro client cache ep p method apiV s b e hpre hst herr
    rw [doRequest_performs_outcome client cache ep p method apiV _ hpre]
    simp [responseDataOf, hst, finishRequest, isNullish_of_field_truthy b "error" herr, herr]
  · intro client cache ep p method apiV s b e hpre hst hb
    rw [doRequest_performs_outcome client cache ep p method apiV _ hpre]
    rw [responseDataOf, if_neg hst]
    simp [finishRequest, isNullish, getField, lookupField, hb]

/-- C6 witness: a POST answered 404 with a structured error body rejects
with the inner normalized error carrying the backend code. -/
theorem reject_resolve_amended_witness :
    (doRequest sampleClient [] "/user/exchanges" none "POST" 2
        (.ok 404 (.obj [("error", .obj [("code", .num 8), ("msg", .str "wrong")])]) 90)).outcome =
      .rejected (.obj [("code", .num 8), ("msg", .str "wrong")]) :=
  reject_resolve_amended.2.2.2.2 sampleClient [] "/user/exchanges" none "POST" 2 404
    (.obj [("error", .obj [("code", .num 8), ("msg", .str "wrong")])]) 90
    (fun h => absurd h (by decide)) (by decide) rfl

/-- C6 counterexample: a 500 response whose JSON body parses to null is
not rejected; the run resolves with the error wrapper object, although
the status is not a success status. -/
theorem reject_resolve_counterexample :
    (doRequest sampleClient [] "/login" none "POST" 2 (.ok 500 .null 80)).outcome =
      .resolved (.obj [("error", .null)]) ∧
    ¬ ((500 : Nat) = 200 ∨ (500 : Nat) = 201) := by
  constructor
  · rfl
  · decide

theorem finishRequest_cache (rd : JsValue) (lat : LatencyMap) (locks : List String)
    (ca : ResponseCache) (n : Nat) : (finishRequest rd lat locks ca n).cache = ca := by
  simp only [finishRequest]
  split_ifs <;> rfl

theorem finishRequest_requestLock (rd : JsValue) (lat : LatencyMap) (locks : List String)
    (ca : ResponseCache) (n : Nat) :
    (finishRequest rd lat locks ca n).requestLock = locks := by
  simp only [finishRequest]
  split_ifs <;> rfl

theorem finishRequest_netCallCount (rd : JsValue) (lat : LatencyMap) (locks : List String)
    (ca : ResponseCache) (n : Nat) :
    (finishRequest rd lat locks ca n).netCallCount = n := by
  simp only [finishRequest]
  split_ifs <;> rfl

/-- The shared state left by a GET doRequest that performs its fetch and
gets a parsed response: latency recorded, responseData cached under the
current average latency as ttl, lock released. -/
theorem doRequest_get_ok_state (client : TradeApiClient) (cache : ResponseCache)
    (ep : String) (p : Option Payload) (apiV : Nat) (s : Nat) (b : JsValue) (e : Rat)
    (hmiss : truthy (cacheGet cache (requestCacheIdOf client ep p "GET" apiV)) = false)
    (hfree : client.requestLock.contains (requestCacheIdOf client ep p "GET" apiV) = false) :
    (doRequest client cache ep p "GET" apiV (.ok s b e)).cache =
      cachePut cache (requestCacheIdOf client ep p "GET" apiV)
        (responseDataOf (.ok s b e))
        (getRequestAverageLatency
          (setRequestAverageLatency client.requestAverageLatency
            (requestCacheIdOf client ep p "GET" apiV) e)
          (requestCacheIdOf client ep p "GET" apiV)) ∧
    (doRequest client cache ep p "GET" apiV (.ok s b e)).requestLock =
      client.requestLock ∧
    (doRequest client cache ep p "GET" apiV (.ok s b e)).netCallCount = 1 := by
  rw [doRequest_get_fetch client cache ep p apiV _ hmiss hfree]
  simp only [performFetch, responseDataOf]
  rw [releaseRequestLock_cons]
  exact ⟨finishRequest_cache _ _ _ _ _, finishRequest_requestLock _ _ _ _ _,
    finishRequest_netCallCount _ _ _ _ _⟩

/-- A GET doRequest with a truthy cached entry returns it at once: no
fetch, no lock traffic, no error handling, no session expiry check. -/
theorem doRequest_get_hit (client : TradeApiClient) (cache : ResponseCache)
    (ep : String) (p : Option Payload) (apiV : Nat) (o : FetchOutcome)
    (hhit : truthy (cacheGet cache (requestCacheIdOf client ep p "GET" apiV)) = true) :
    doRequest client cache ep p "GET" apiV o =
      { outcome := .resolved (cacheGet cache (requestCacheIdOf client ep p "GET" apiV)),
        requestAverageLatency := client.requestAverageLatency,
        requestLock := client.requestLock, cache := cache,
        netCallCount := 0, navigateLoginCount := 0 } := by
  simp [doRequest, hhit]

theorem requestCacheIdOf_state_independent (client : TradeApiClient) (L : LatencyMap)
    (K : List String) (ep : String) (p : Option Payload) (method : String) (apiV : Nat) :
    requestCacheIdOf
        { client with requestAverageLatency := L, requestLock := K } ep p method apiV =
      requestCacheIdOf client ep p method apiV := rfl

/-- C5 (amended): for a GET whose fetch and body parse complete, a cache
entry for the fingerprint is written whatever the status is — a backend
error response is stored wrapped in an error field; only a rejecting
fetch or a rejecting body parse (transport class failures) leave the
cache unchanged, and non-GET requests never populate it. -/
theorem cache_population_amended :
    (∀ (client : TradeApiClient) (cache : ResponseCache) (ep : String)
        (p : Option Payload) (apiV : Nat) (s : Nat) (b : JsValue) (e : Rat),
      truthy (cacheGet cache (requestCacheIdOf client ep p "GET" apiV)) = false →
      client.requestLock.contains (requestCacheIdOf client ep p "GET" apiV) = false →
      List.lookup (requestCacheIdOf client ep p "GET" apiV)
          (doRequest client cache ep p "GET" apiV (.ok s b e)).cache =
        some (responseDataOf (.ok s b e),
          getRequestAverageLatency
            (setRequestAverageLatency client.requestAverageLatency
              (requestCacheIdOf client ep p "GET" apiV) e)
            (requestCacheIdOf client ep p "GET" apiV))) ∧
    (∀ (client : TradeApiClient) (cache : ResponseCache) (ep : String)
        (p : Option Payload) (apiV : Nat) (msg : String),
      truthy (cacheGet cache (requestCacheIdOf client ep p "GET" apiV)) = false →
      client.requestLock.contains (requestCacheIdOf client ep p "GET" apiV) = false →
      (doRequest client cache ep p "GET" apiV (.rejects msg)).cache = cache) ∧
    (∀ (client : TradeApiClient) (cache : ResponseCache) (ep : String)
        (p : Option Payload) (apiV : Nat) (s : Nat) (msg : String) (e : Rat),
      truthy (cacheGet cache (requestCacheIdOf client ep p "GET" apiV)) = false →
      client.requestLock.contains (requestCacheIdOf client ep p "GET" apiV) = false →
      (doRequest client cache ep p "GET" apiV (.jsonRejects s msg e)).cache = cache) ∧
    (∀ (client : TradeApiClient) (cache : ResponseCache) (ep : String)
        (p : Option Payload) (method : String) (apiV : Nat) (o : FetchOutcome),
      ¬ method = "GET" →
      (doRequest client cache ep p method apiV o).cache = cache) := by
  refine ⟨?_, ?_, ?_, ?_⟩
  · intro client cache ep p apiV s b e hmiss hfree
    rw [(doRequest_get_ok_state client cache ep p apiV s b e hmiss hfree).1]
    exact lookup_alistSet_self _ _ _
  · intro client cache ep p apiV msg hmiss hfree
    rw [doRequest_get_fetch client cache ep p apiV _ hmiss hfree]
    exact finishRequest_cache _ _ _ _ _
  · intro client cache ep p apiV s msg e hmiss hfree
    rw [doRequest_get_fetch client cache ep p apiV _ hmiss hfree]
    exact finishRequest_cache _ _ _ _ _
  · intro client cache ep p method apiV o hm
    rw [doRequest_non_get client cache ep p method apiV o hm]
    cases o <;>
      · simp only [performFetch, Bool.false_eq_true, if_false]
        exact finishRequest_cache _ _ _ _ _

/-- C5 witness: a successful 200 GET caches its body with the observed
latency as ttl. -/
theorem cache_population_amended_witness :
    List.lookup (requestCacheIdOf sampleClient "/q" none "GET" 2)
        (doRequest sampleClient [] "/q" none "GET" 2
          (.ok 200 (.obj [("total", .num 100)]) 300)).cache =
      some (.obj [("total", .num 100)], 300) :=
  cache_population_amended.1 sampleClient [] "/q" none 2 200
    (.obj [("total", .num 100)]) 300 rfl rfl

/-- C5 counterexample: a GET answered with status 500 fails (the promise
rejects), yet a cache entry for the fingerprint is created, holding the
error wrapper object. -/
theorem cache_population_counterexample :
    (doRequest sampleClient [] "/p" none "GET" 2
        (.ok 500 (.obj [("code", .num 5)]) 100)).outcome =
      .rejected (.obj [("code", .num 5)]) ∧
    (List.lookup (requestCacheIdOf sampleClient "/p" none "GET" 2)
        (doRequest sampleClient [] "/p" none "GET" 2
          (.ok 500 (.obj [("code", .num 5)]) 100)).cache).isSome = true := by
  exact ⟨rfl, rfl⟩

/-- C2 (amended): the lock taken by a GET is released whenever the fetch
and the body parse complete, whatever the status.  But when the fetch (or
the parse) rejects, the catch path skips the release — there is no
finally — so the lock stays held, and a later GET for the same
fingerprint does not issue a new network call: it suspends on the cache
poll. -/
theorem lock_release_amended :
    (∀ (client : TradeApiClient) (cache : ResponseCache) (ep : String)
        (p : Option Payload) (apiV : Nat) (s : Nat) (b : JsValue) (e : Rat),
      truthy (cacheGet cache (requestCacheIdOf client ep p "GET" apiV)) = false →
      client.requestLock.contains (requestCacheIdOf client ep p "GET" apiV) = false →
      (doRequest client cache ep p "GET" apiV (.ok s b e)).requestLock.contains
          (requestCacheIdOf client ep p "GET" apiV) = false ∧
      (doRequest client cache ep p "GET" apiV (.ok s b e)).netCallCount = 1) ∧
    (∀ (client : TradeApiClient) (cache : ResponseCache) (ep : String)
        (p : Option Payload) (apiV : Nat) (msg : String),
      truthy (cacheGet cache (requestCacheIdOf client ep p "GET" apiV)) = false →
      client.requestLock.contains (requestCacheIdOf client ep p "GET" apiV) = false →
      (doRequest client cache ep p "GET" apiV (.rejects msg)).requestLock.contains
          (requestCacheIdOf client ep p "GET" apiV) = true ∧
      (∀ o2 : FetchOutcome,
        (doRequest
            { client with
              requestAverageLatency :=
                (doRequest client cache ep p "GET" apiV (.rejects msg)).requestAverageLatency,
              requestLock :=
                (doRequest client cache ep p "GET" apiV (.rejects msg)).requestLock }
            (doRequest client cache ep p "GET" apiV (.rejects msg)).cache
            ep p "GET" apiV o2).outcome = .waitsOnCache ∧
        (doRequest
            { client with
              requestAverageLatency :=
                (doRequest client cache ep p "GET" apiV (.rejects msg)).requestAverageLatency,
              requestLock :=
                (doRequest client cache ep p "GET" apiV (.rejects msg)).requestLock }
            (doRequest client cache ep p "GET" apiV (.rejects msg)).cache
            ep p "GET" apiV o2).netCallCount = 0)) ∧
    (∀ (client : TradeApiClient) (cache : ResponseCache) (ep : String)
        (p : Option Payload) (apiV : Nat) (s : Nat) (msg : String) (e : Rat),
      truthy (cacheGet cache (requestCacheIdOf client ep p "GET" apiV)) = false →
      client.requestLock.contains (requestCacheIdOf client ep p "GET" apiV) = false →
      (doRequest client cache ep p "GET" apiV (.jsonRejects s msg e)).requestLock.contains
          (requestCacheIdOf client ep p "GET" apiV) = true) := by
  refine ⟨?_, ?_, ?_⟩
  · intro client cache ep p apiV s b e hmiss hfree
    obtain ⟨-, hlock, hnet⟩ := doRequest_get_ok_state client cache ep p apiV s b e hmiss hfree
    exact ⟨by rw [hlock]; exact hfree, hnet⟩
  · intro client cache ep p apiV msg hmiss hfree
    have hrun :
        (doRequest client cache ep p "GET" apiV (.rejects msg)).requestLock =
          requestCacheIdOf client ep p "GET" apiV :: client.requestLock ∧
        (doRequest client cache ep p "GET" apiV (.rejects msg)).cache = cache := by
      rw [doRequest_get_fetch client cache ep p apiV _ hmiss hfree]
      exact ⟨finishRequest_requestLock _ _ _ _ _, finishRequest_cache _ _ _ _ _⟩
    constructor
    · rw [hrun.1]
      simp
    · intro o2
      rw [hrun.2]
      have hid := requestCacheIdOf_state_independent client
        (doRequest client cache ep p "GET" apiV (.rejects msg)).requestAverageLatency
        (doRequest client cache ep p "GET" apiV (.rejects msg)).requestLock ep p "GET" apiV
      have hheld :
          ({ client with
              requestAverageLatency :=
                (doRequest client cache ep p "GET" apiV (.rejects msg)).requestAverageLatency,
              requestLock :=
                (doRequest client cache ep p "GET" apiV (.rejects msg)).requestLock } :
            TradeApiClient).requestLock.contains
            (requestCacheIdOf
              { client with
                requestAverageLatency :=
                  (doRequest client cache ep p "GET" apiV (.rejects msg)).requestAverageLatency,
                requestLock :=
                  (doRequest client cache ep p "GET" apiV (.rejects msg)).requestLock }
              ep p "GET" apiV) = true := by
        rw [hid]
        show (doRequest client cache ep p "GET" apiV (.rejects msg)).requestLock.contains _ = true
        rw [hrun.1]
        simp
      rw [doRequest_get_locked _ cache ep p apiV o2 (by rw [hid]; exact hmiss) hheld]
      exact ⟨rfl, rfl⟩
  · intro client cache ep p apiV s msg e hmiss hfree
    rw [doRequest_get_fetch client cache ep p apiV _ hmiss hfree,
      performFetch, finishRequest_requestLock]
    simp

/-- C2 witness: a GET whose fetch completes with a 200 leaves the lock
free again after the cycle. -/
theorem lock_release_amended_witness :
    (doRequest sampleClient [] "/w" none "GET" 2
        (.ok 200 (.obj [("ok", .bool true)]) 120)).requestLock.contains
        (requestCacheIdOf sampleClient "/w" none "GET" 2) = false ∧
    (doRequest sampleClient [] "/w" none "GET" 2
        (.ok 200 (.obj [("ok", .bool true)]) 120)).netCallCount = 1 :=
  lock_release_amended.1 sampleClient [] "/w" none 2 200 (.obj [("ok", .bool true)]) 120
    rfl rfl

/-- C2 counterexample: after a GET whose fetch rejects, the lock for the
fingerprint is still held, and a subsequent GET for the same fingerprint
suspends on the cache poll with no network call, instead of fetching. -/
theorem lock_release_counterexample :
    (doRequest sampleClient [] "/bal" none "GET" 2
        (.rejects "Network request failed")).requestLock.contains
        (requestCacheIdOf sampleClient "/bal" none "GET" 2) = true ∧
    (doRequest
        { sampleClient with
          requestAverageLatency :=
            (doRequest sampleClient [] "/bal" none "GET" 2
              (.rejects "Network request failed")).requestAverageLatency,
          requestLock :=
            (doRequest sampleClient [] "/bal" none "GET" 2
              (.rejects "Network request failed")).requestLock }
        (doRequest sampleClient [] "/bal" none "GET" 2
          (.rejects "Network request failed")).cache
        "/bal" none "GET" 2 (.ok 200 (.obj [("total", .num 1)]) 50)).outcome =
      .waitsOnCache ∧
    (doRequest
        { sampleClient with
          requestAverageLatency :=
            (doRequest sampleClient [] "/bal" none "GET" 2
              (.rejects "Network request failed")).requestAverageLatency,
          requestLock :=
            (doRequest sampleClient [] "/bal" none "GET" 2
              (.rejects "Network request failed")).requestLock }
        (doRequest sampleClient [] "/bal" none "GET" 2
          (.rejects "Network request failed")).cache
        "/bal" none "GET" 2 (.ok 200 (.obj [("total", .num 1)]) 50)).netCallCount = 0 := by
  exact ⟨rfl, rfl, rfl⟩

/-- C9: a GET answered with a non-success status and a truthy parsed body
stores the error wrapper in the cache and releases the lock before the
performing caller rejects; any later caller for the fingerprint — an
immediate cache hit or the poll loop of a waiter — receives that error
wrapper as a successful resolution, with no rejection and no session
expiry handling. -/
theorem error_response_cached_and_served (client : TradeApiClient)
    (cache : ResponseCache) (ep : String) (p : Option Payload) (apiV : Nat)
    (s : Nat) (b : JsValue) (e : Rat)
    (hs : ¬ (s = 200 ∨ s = 201)) (hb : truthy b = true)
    (hmiss : truthy (cacheGet cache (requestCacheIdOf client ep p "GET" apiV)) = false)
    (hfree : client.requestLock.contains (requestCacheIdOf client ep p "GET" apiV) = false) :
    (doRequest client cache ep p "GET" apiV (.ok s b e)).outcome =
      .rejected (normalizeError b) ∧
    List.lookup (requestCacheIdOf client ep p "GET" apiV)
        (doRequest client cache ep p "GET" apiV (.ok s b e)).cache =
      some (.obj [("error", b)],
        getRequestAverageLatency
          (setRequestAverageLatency client.requestAverageLatency
            (requestCacheIdOf client ep p "GET" apiV) e)
          (requestCacheIdOf client ep p "GET" apiV)) ∧
    (∀ o2 : FetchOutcome,
      (doRequest
          { client with
            requestAverageLatency :=
              (doRequest client cache ep p "GET" apiV (.ok s b e)).requestAverageLatency,
            requestLock :=
              (doRequest client cache ep p "GET" apiV (.ok s b e)).requestLock }
          (doRequest client cache ep p "GET" apiV (.ok s b e)).cache
          ep p "GET" apiV o2).outcome = .resolved (.obj [("error", b)]) ∧
      (doRequest
          { client with
            requestAverageLatency :=
              (doRequest client cache ep p "GET" apiV (.ok s b e)).requestAverageLatency,
            requestLock :=
              (doRequest client cache ep p "GET" apiV (.ok s b e)).requestLock }
          (doRequest client cache ep p "GET" apiV (.ok s b e)).cache
          ep p "GET" apiV o2).netCallCount = 0 ∧
      (doRequest
          { client with
            requestAverageLatency :=
              (doRequest client cache ep p "GET" apiV (.ok s b e)).requestAverageLatency,
            requestLock :=
              (doRequest client cache ep p "GET" apiV (.ok s b e)).requestLock }
          (doRequest client cache ep p "GET" apiV (.ok s b e)).cache
          ep p "GET" apiV o2).navigateLoginCount = 0) ∧
    resolveFromCachePoll (doRequest client cache ep p "GET" apiV (.ok s b e)).cache
        (requestCacheIdOf client ep p "GET" apiV) =
      some (.obj [("error", b)]) := by
  have hstate := doRequest_get_ok_state client cache ep p apiV s b e hmiss hfree
  have hrd : responseDataOf (.ok s b e) = .obj [("error", b)] := by
    simp [responseDataOf, hs]
  have hcache :
      (doRequest client cache ep p "GET" apiV (.ok s b e)).cache =
        cachePut cache (requestCacheIdOf client ep p "GET" apiV) (.obj [("error", b)])
          (getRequestAverageLatency
            (setRequestAverageLatency client.requestAverageLatency
              (requestCacheIdOf client ep p "GET" apiV) e)
            (requestCacheIdOf client ep p "GET" apiV)) := by
    rw [hstate.1, hrd]
  have hget :
      cacheGet (doRequest client cache ep p "GET" apiV (.ok s b e)).cache
          (requestCacheIdOf client ep p "GET" apiV) = .obj [("error", b)] := by
    rw [hcache]
    exact cacheGet_cachePut_self _ _ _ _
  refine ⟨?_, ?_, ?_, ?_⟩
  · rw [doRequest_performs_outcome client cache ep p "GET" apiV _
      (fun _ => ⟨hmiss, hfree⟩), hrd]
    simp [finishRequest, isNullish, getField, lookupField, hb]
  · rw [hcache]
    exact lookup_alistSet_self _ _ _
  · intro o2
    have hid := requestCacheIdOf_state_independent client
      (doRequest client cache ep p "GET" apiV (.ok s b e)).requestAverageLatency
      (doRequest client cache ep p "GET" apiV (.ok s b e)).requestLock ep p "GET" apiV
    have hhit : truthy (cacheGet (doRequest client cache ep p "GET" apiV (.ok s b e)).cache
        (requestCacheIdOf
          { client with
            requestAverageLatency :=
              (doRequest client cache ep p "GET" apiV (.ok s b e)).requestAverageLatency,
            requestLock :=
              (doRequest client cache ep p "GET" apiV (.ok s b e)).requestLock }
          ep p "GET" apiV)) = true := by
      rw [hid, hget]
      rfl
    rw [doRequest_get_hit _ _ ep p apiV o2 hhit]
    refine ⟨?_, rfl, rfl⟩
    show RunOutcome.resolved _ = _
    rw [hid, hget]
  · rw [resolveFromCachePoll, hget]
    rfl

/-- C9 witness: a 500 GET response with body carrying code 13 is cached;
the performing caller rejects, while the poll loop of a waiter serves the
error wrapper as a resolution. -/
theorem error_response_cached_and_served_witness :
    (doRequest sampleClient [] "/user/exchanges" none "GET" 2
        (.ok 500 (.obj [("code", .num 13)]) 320)).outcome =
      .rejected (.obj [("code", .num 13)]) ∧
    resolveFromCachePoll
        (doRequest sampleClient [] "/user/exchanges" none "GET" 2
          (.ok 500 (.obj [("code", .num 13)]) 320)).cache
        (requestCacheIdOf sampleClient "/user/exchanges" none "GET" 2) =
      some (.obj [("error", .obj [("code", .num 13)])]) := by
  have h := error_response_cached_and_served sampleClient [] "/user/exchanges" none 2
    500 (.obj [("code", .num 13)]) 320 (by decide) rfl rfl rfl
  exact ⟨h.1, h.2.2.2⟩

/-- C3 (amended): the fingerprint is deterministic in the serialized
payload: two payloads with equal URLSearchParams serialization (GET) or
equal JSON.stringify serialization (non-GET) get the same cache id, for
every endpoint.  But serialization is insertion-ordered, not canonical:
see the key order counterexample. -/
theorem fingerprint_serialization_determined :
    (∀ (client : TradeApiClient) (ep : String) (p q : Payload) (apiV : Nat),
      urlSearchParamsString p = urlSearchParamsString q →
      requestCacheIdOf client ep (some p) "GET" apiV =
        requestCacheIdOf client ep (some q) "GET" apiV) ∧
    (∀ (client : TradeApiClient) (ep : String) (p q : Payload) (apiV : Nat),
      jsonStringifyPayload p = jsonStringifyPayload q →
      requestCacheIdOf client ep (some p) "POST" apiV =
        requestCacheIdOf client ep (some q) "POST" apiV) := by
  constructor
  · intro client ep p q apiV h
    simp [requestCacheIdOf, requestUrlOf, requestBodyOf, h]
  · intro client ep p q apiV h
    simp [requestCacheIdOf, requestUrlOf, requestBodyOf, jsonStringifyOpt, h]

/-- C3 witness: two distinct payload objects with the same serialization
(the number 1 and the string 1 both serialize to a=1) share a
fingerprint. -/
theorem fingerprint_serialization_determined_witness :
    requestCacheIdOf sampleClient "/pos" (some [("a", .num 1)]) "GET" 2 =
      requestCacheIdOf sampleClient "/pos" (some [("a", .str "1")]) "GET" 2 :=
  fingerprint_serialization_determined.1 sampleClient "/pos"
    [("a", .num 1)] [("a", .str "1")] 2 (by decide)

/-- C3 counterexample: the same two key-value pairs in the two insertion
orders — equal as finite maps, as the permutation shows — produce
different request cache ids, because URLSearchParams serializes
properties in insertion order and nothing sorts the keys. -/
theorem fingerprint_key_order_counterexample :
    List.Perm
        ([("a", JsPrim.num 1), ("b", JsPrim.num 2)])
        ([("b", JsPrim.num 2), ("a", JsPrim.num 1)]) ∧
    ¬ requestCacheIdOf sampleClient "/pos"
          (some [("a", .num 1), ("b", .num 2)]) "GET" 2 =
        requestCacheIdOf sampleClient "/pos"
          (some [("b", .num 2), ("a", .num 1)]) "GET" 2 := by
  constructor
  · decide
  · decide

/-! ### Concurrent deduplication

Proofs about the two-caller cooperative model: mutual exclusion of the
in-flight section, a single network call per pair of concurrent GET
calls, and agreement of the two results on clean success responses. -/

def TaskPhase.isResolved : TaskPhase → Bool
  | .settledOk _ => true
  | _ => false

theorem settleResponse_not_inFlight (rd : JsValue) :
    (settleResponse rd).inFlight = false := by
  simp only [settleResponse]
  split_ifs <;> rfl

theorem settleResponse_ne_ready (rd : JsValue) : settleResponse rd ≠ .ready := by
  simp only [settleResponse]
  split_ifs <;> simp

theorem settleResponse_clean (v : JsValue) (hv : truthy v = true)
    (herr : truthy (getField v "error") = false) : settleResponse v = .settledOk v := by
  simp [settleResponse, isNullish_of_truthy v hv, herr]

/-- Lock discipline of the model: the two tasks are never both in flight,
and an in-flight task implies the lock is held. -/
def MutexInv (cacheId : String) (s : SysState) : Prop :=
  ¬ (s.taskA.inFlight = true ∧ s.taskB.inFlight = true) ∧
  ((s.taskA.inFlight = true ∨ s.taskB.inFlight = true) →
    s.shared.requestLock.contains cacheId = true)

/-- One step of either task preserves the lock discipline, seen from the
stepped task phS against the other task phO. -/
theorem mutex_core (cacheId : String) (o : FetchOutcome) (sh : SharedState)
    (phS phO : TaskPhase)
    (h1 : ¬ (phS.inFlight = true ∧ phO.inFlight = true))
    (h2 : phS.inFlight = true ∨ phO.inFlight = true →
      sh.requestLock.contains cacheId = true) :
    ¬ ((taskStep cacheId o sh phS).1.inFlight = true ∧ phO.inFlight = true) ∧
    (((taskStep cacheId o sh phS).1.inFlight = true ∨ phO.inFlight = true) →
      (taskStep cacheId o sh phS).2.1.requestLock.contains cacheId = true) := by
  cases phS with
  | ready =>
      by_cases hhit : truthy (cacheGet sh.cache cacheId) = true
      · have hts : taskStep cacheId o sh .ready =
            (.settledOk (cacheGet sh.cache cacheId), sh, false) := by
          simp [taskStep, hhit]
        rw [hts]
        refine ⟨by simp [TaskPhase.inFlight], fun h => ?_⟩
        rcases h with h | h
        · simp [TaskPhase.inFlight] at h
        · exact h2 (Or.inr h)
      · by_cases hlock : sh.requestLock.contains cacheId = true
        · have hmem : cacheId ∈ sh.requestLock := by simpa using hlock
          have hts : taskStep cacheId o sh .ready = (.polling, sh, false) := by
            simp [taskStep, hhit, getRequestLock, hmem]
          rw [hts]
          refine ⟨by simp [TaskPhase.inFlight], fun h => ?_⟩
          rcases h with h | h
          · simp [TaskPhase.inFlight] at h
          · exact h2 (Or.inr h)
        · have hmem : cacheId ∉ sh.requestLock := by simpa using hlock
          have hts : taskStep cacheId o sh .ready =
              (.fetching, { sh with requestLock := cacheId :: sh.requestLock }, true) := by
            simp [taskStep, hhit, getRequestLock, hmem]
          rw [hts]
          constructor
          · intro hpair
            exact hlock (h2 (Or.inr hpair.2))
          · intro _
            simp
  | fetching =>
      have hS : TaskPhase.inFlight .fetching = true := rfl
      cases o with
      | rejects msg =>
          have hts : taskStep cacheId (.rejects msg) sh .fetching =
              (.settledErr (.str msg), sh, false) := by simp [taskStep]
          rw [hts]
          refine ⟨by simp [TaskPhase.inFlight], fun h => ?_⟩
          rcases h with h | h
          · simp [TaskPhase.inFlight] at h
          · exact h2 (Or.inr h)
      | jsonRejects st msg e =>
          have hts : taskStep cacheId (.jsonRejects st msg e) sh .fetching =
              (.parsing,
               { sh with requestAverageLatency :=
                   setRequestAverageLatency sh.requestAverageLatency cacheId e },
               false) := by simp [taskStep]
          rw [hts]
          constructor
          · intro hpair
            exact h1 ⟨hS, hpair.2⟩
          · intro _
            exact h2 (Or.inl hS)
      | ok st b e =>
          have hts : taskStep cacheId (.ok st b e) sh .fetching =
              (.parsing,
               { sh with requestAverageLatency :=
                   setRequestAverageLatency sh.requestAverageLatency cacheId e },
               false) := by simp [taskStep]
          rw [hts]
          constructor
          · intro hpair
            exact h1 ⟨hS, hpair.2⟩
          · intro _
            exact h2 (Or.inl hS)
  | parsing =>
      have hS : TaskPhase.inFlight .parsing = true := rfl
      cases o with
      | rejects msg =>
          have hts : taskStep cacheId (.rejects msg) sh .parsing =
              (.settledErr (.str msg), sh, false) := by simp [taskStep]
          rw [hts]
          refine ⟨by simp [TaskPhase.inFlight], fun h => ?_⟩
          rcases h with h | h
          · simp [TaskPhase.inFlight] at h
          · exact h2 (Or.inr h)
      | jsonRejects st msg e =>
          have hts : taskStep cacheId (.jsonRejects st msg e) sh .parsing =
              (.settledErr (.str msg), sh, false) := by simp [taskStep]
          rw [hts]
          refine ⟨by simp [TaskPhase.inFlight], fun h => ?_⟩
          rcases h with h | h
          · simp [TaskPhase.inFlight] at h
          · exact h2 (Or.inr h)
      | ok st b e =>
          constructor
          · intro hpair
            have := hpair.1
            rw [show (taskStep cacheId (.ok st b e) sh .parsing).1 =
                settleResponse (if st = 200 ∨ st = 201 then b else .obj [("error", b)])
                from by simp [taskStep]] at this
            rw [settleResponse_not_inFlight] at this
            simp at this
          · intro h
            rcases h with h | h
            · rw [show (taskStep cacheId (.ok st b e) sh .parsing).1 =
                  settleResponse (if st = 200 ∨ st = 201 then b else .obj [("error", b)])
                  from by simp [taskStep]] at h
              rw [settleResponse_not_inFlight] at h
              simp at h
            · exact absurd ⟨hS, h⟩ h1
  | polling =>
      cases hp : resolveFromCachePoll sh.cache cacheId with
      | none =>
          have hts : taskStep cacheId o sh .polling = (.polling, sh, false) := by
            simp [taskStep, hp]
          rw [hts]
          refine ⟨by simp [TaskPhase.inFlight], fun h => ?_⟩
          rcases h with h | h
          · simp [TaskPhase.inFlight] at h
          · exact h2 (Or.inr h)
      | some v =>
          have hts : taskStep cacheId o sh .polling = (.settledOk v, sh, false) := by
            simp [taskStep, hp]
          rw [hts]
          refine ⟨by simp [TaskPhase.inFlight], fun h => ?_⟩
          rcases h with h | h
          · simp [TaskPhase.inFlight] at h
          · exact h2 (Or.inr h)
  | settledOk v =>
      refine ⟨by simp [taskStep, TaskPhase.inFlight], fun h => ?_⟩
      rcases h with h | h
      · simp [taskStep, TaskPhase.inFlight] at h
      · exact h2 (Or.inr h)
  | settledErr v =>
      refine ⟨by simp [taskStep, TaskPhase.inFlight], fun h => ?_⟩
      rcases h with h | h
      · simp [taskStep, TaskPhase.inFlight] at h
      · exact h2 (Or.inr h)
  | settledTypeError =>
      refine ⟨by simp [taskStep, TaskPhase.inFlight], fun h => ?_⟩
      rcases h with h | h
      · simp [taskStep, TaskPhase.inFlight] at h
      · exact h2 (Or.inr h)

theorem mutexInv_sysStep (cacheId : String) (oA oB : FetchOutcome) (s : SysState)
    (c : Bool) (h : MutexInv cacheId s) :
    MutexInv cacheId (sysStep cacheId oA oB s c) := by
  obtain ⟨h1, h2⟩ := h
  cases c with
  | true =>
      have hc := mutex_core cacheId oA s.shared s.taskA s.taskB h1 h2
      exact ⟨hc.1, hc.2⟩
  | false =>
      have hc := mutex_core cacheId oB s.shared s.taskB s.taskA
        (fun hp => h1 ⟨hp.2, hp.1⟩) (fun hp => h2 hp.symm)
      exact ⟨fun hp => hc.1 ⟨hp.2, hp.1⟩, fun hp => hc.2 hp.symm⟩

theorem mutexInv_sysRun (cacheId : String) (oA oB : FetchOutcome)
    (choices : List Bool) :
    ∀ s : SysState, MutexInv cacheId s →
      MutexInv cacheId (sysRun cacheId oA oB s choices) := by
  induction choices with
  | nil => exact fun s h => h
  | cons c cs ih =>
      intro s h
      exact ih _ (mutexInv_sysStep cacheId oA oB s c h)

theorem sysRun_cons (cacheId : String) (oA oB : FetchOutcome) (s : SysState)
    (c : Bool) (cs : List Bool) :
    sysRun cacheId oA oB s (c :: cs) =
      sysRun cacheId oA oB (sysStep cacheId oA oB s c) cs := rfl

/-- The state after the two concurrent calls have both started (in either
order): one task issued the fetch and holds the lock, the other entered
the poll loop.  No outcome is consumed by these two steps. -/
theorem after_two_true (cacheId : String) (oA oB : FetchOutcome) :
    sysStep cacheId oA oB (sysStep cacheId oA oB initSys true) false =
      { shared := { requestAverageLatency := [], requestLock := [cacheId], cache := [] },
        taskA := .fetching, taskB := .polling, netCalls := 1 } := by
  simp [sysStep, taskStep, initSys, cacheGet, truthy, getRequestLock]

theorem after_two_false (cacheId : String) (oA oB : FetchOutcome) :
    sysStep cacheId oA oB (sysStep cacheId oA oB initSys false) true =
      { shared := { requestAverageLatency := [], requestLock := [cacheId], cache := [] },
        taskA := .polling, taskB := .fetching, netCalls := 1 } := by
  simp [sysStep, taskStep, initSys, cacheGet, truthy, getRequestLock]

theorem taskStep_no_issue (cacheId : String) (o : FetchOutcome) (sh : SharedState)
    (ph : TaskPhase) (h : ph ≠ .ready) :
    (taskStep cacheId o sh ph).2.2 = false ∧ (taskStep cacheId o sh ph).1 ≠ .ready := by
  cases ph with
  | ready => exact absurd rfl h
  | fetching => cases o <;> simp [taskStep]
  | parsing =>
      cases o <;> simp [taskStep]
      exact settleResponse_ne_ready _
  | polling => cases hp : resolveFromCachePoll sh.cache cacheId <;> simp [taskStep, hp]
  | settledOk v => simp [taskStep]
  | settledErr v => simp [taskStep]
  | settledTypeError => simp [taskStep]

/-- Once both tasks have left ready, no further step issues a network
call: the network call count is frozen. -/
theorem sysRun_no_ready_netCalls (cacheId : String) (oA oB : FetchOutcome)
    (choices : List Bool) :
    ∀ s : SysState, s.taskA ≠ .ready → s.taskB ≠ .ready →
      (sysRun cacheId oA oB s choices).netCalls = s.netCalls := by
  induction choices with
  | nil => intro s _ _; rfl
  | cons c cs ih =>
      intro s hA hB
      rw [sysRun_cons]
      cases c with
      | true =>
          have hstep := taskStep_no_issue cacheId oA s.shared s.taskA hA
          rw [ih (sysStep cacheId oA oB s true) hstep.2 hB]
          simp [sysStep, hstep.1]
      | false =>
          have hstep := taskStep_no_issue cacheId oB s.shared s.taskB hB
          rw [ih (sysStep cacheId oA oB s false) hA hstep.2]
          simp [sysStep, hstep.1]

/-- Reachable states of the two-caller run on a clean success response:
either the holder is mid-flight with the waiter polling an empty cache,
or the holder has settled with the body, the cache holds the body, and
the waiter is polling or has settled with the same body. -/
def GoodInv (cacheId : String) (v : JsValue) (s : SysState) : Prop :=
  s.netCalls = 1 ∧
  ((((s.taskA = .fetching ∨ s.taskA = .parsing) ∧ s.taskB = .polling) ∨
    ((s.taskB = .fetching ∨ s.taskB = .parsing) ∧ s.taskA = .polling)) ∧
      s.shared.requestLock = [cacheId] ∧ s.shared.cache = [] ∨
   ((s.taskA = .settledOk v ∧ (s.taskB = .polling ∨ s.taskB = .settledOk v)) ∨
    (s.taskB = .settledOk v ∧ (s.taskA = .polling ∨ s.taskA = .settledOk v))) ∧
      s.shared.requestLock = [] ∧ ∃ ttl, s.shared.cache = [(cacheId, (v, ttl))])

theorem goodInv_sysStep (cacheId : String) (st : Nat) (v : JsValue) (e : Rat)
    (hst : st = 200 ∨ st = 201) (hv : truthy v = true)
    (herr : truthy (getField v "error") = false) (s : SysState) (c : Bool)
    (h : GoodInv cacheId v s) :
    GoodInv cacheId v (sysStep cacheId (.ok st v e) (.ok st v e) s c) := by
  obtain ⟨hn, hcase⟩ := h
  have ho : (if st = 200 ∨ st = 201 then v else JsValue.obj [("error", v)]) = v :=
    if_pos hst
  rcases hcase with ⟨hroles, hlock, hcache⟩ | ⟨hroles, hlock, hcache⟩
  · rcases hroles with ⟨hHold, hWait⟩ | ⟨hHold, hWait⟩
    · cases c with
      | true =>
          rcases hHold with hA | hA
          · have hstep : sysStep cacheId (.ok st v e) (.ok st v e) s true =
                { shared :=
                    { requestAverageLatency :=
                        setRequestAverageLatency s.shared.requestAverageLatency cacheId e,
                      requestLock := s.shared.requestLock, cache := s.shared.cache },
                  taskA := .parsing, taskB := s.taskB, netCalls := s.netCalls } := by
              simp [sysStep, hA, taskStep]
            rw [hstep]
            exact ⟨hn, Or.inl ⟨Or.inl ⟨Or.inr rfl, hWait⟩, hlock, hcache⟩⟩
          · have hstep : sysStep cacheId (.ok st v e) (.ok st v e) s true =
                { shared :=
                    { requestAverageLatency := s.shared.requestAverageLatency,
                      requestLock := releaseRequestLock s.shared.requestLock cacheId,
                      cache := cachePut s.shared.cache cacheId v
                        (getRequestAverageLatency s.shared.requestAverageLatency cacheId) },
                  taskA := .settledOk v, taskB := s.taskB, netCalls := s.netCalls } := by
              simp [sysStep, hA, taskStep, ho, settleResponse_clean v hv herr]
            rw [hstep]
            refine ⟨hn, Or.inr ⟨Or.inl ⟨rfl, Or.inl hWait⟩, ?_, ?_⟩⟩
            · rw [hlock]
              exact releaseRequestLock_cons [] cacheId
            · exact ⟨_, by rw [hcache]; rfl⟩
      | false =>
          have hpoll : resolveFromCachePoll s.shared.cache cacheId = none := by
            rw [hcache]
            rfl
          have hstep : sysStep cacheId (.ok st v e) (.ok st v e) s false =
              { shared := s.shared, taskA := s.taskA, taskB := .polling,
                netCalls := s.netCalls } := by
            simp [sysStep, hWait, taskStep, hpoll]
          rw [hstep]
          exact ⟨hn, Or.inl ⟨Or.inl ⟨hHold, rfl⟩, hlock, hcache⟩⟩
    · cases c with
      | false =>
          rcases hHold with hB | hB
          · have hstep : sysStep cacheId (.ok st v e) (.ok st v e) s false =
                { shared :=
                    { requestAverageLatency :=
                        setRequestAverageLatency s.shared.requestAverageLatency cacheId e,
                      requestLock := s.shared.requestLock, cache := s.shared.cache },
                  taskA := s.taskA, taskB := .parsing, netCalls := s.netCalls } := by
              simp [sysStep, hB, taskStep]
            rw [hstep]
            exact ⟨hn, Or.inl ⟨Or.inr ⟨Or.inr rfl, hWait⟩, hlock, hcache⟩⟩
          · have hstep : sysStep cacheId (.ok st v e) (.ok st v e) s false =
                { shared :=
                    { requestAverageLatency := s.shared.requestAverageLatency,
                      requestLock := releaseRequestLock s.shared.requestLock cacheId,
                      cache := cachePut s.shared.cache cacheId v
                        (getRequestAverageLatency s.shared.requestAverageLatency cacheId) },
                  taskA := s.taskA, taskB := .settledOk v, netCalls := s.netCalls } := by
              simp [sysStep, hB, taskStep, ho, settleResponse_clean v hv herr]
            rw [hstep]
            refine ⟨hn, Or.inr ⟨Or.inr ⟨rfl, Or.inl hWait⟩, ?_, ?_⟩⟩
            · rw [hlock]
              exact releaseRequestLock_cons [] cacheId
            · exact ⟨_, by rw [hcache]; rfl⟩
      | true =>
          have hpoll : resolveFromCachePoll s.shared.cache cacheId = none := by
            rw [hcache]
            rfl
          have hstep : sysStep cacheId (.ok st v e) (.ok st v e) s true =
              { shared := s.shared, taskA := .polling, taskB := s.taskB,
                netCalls := s.netCalls } := by
            simp [sysStep, hWait, taskStep, hpoll]
          rw [hstep]
          exact ⟨hn, Or.inl ⟨Or.inr ⟨hHold, rfl⟩, hlock, hcache⟩⟩
  · obtain ⟨ttl, hcv⟩ := hcache
    have hpoll : resolveFromCachePoll s.shared.cache cacheId = some v := by
      rw [hcv]
      simp [resolveFromCachePoll, cacheGet, hv]
    rcases hroles with ⟨hS, hO⟩ | ⟨hS, hO⟩
    · cases c with
      | true =>
          have hstep : sysStep cacheId (.ok st v e) (.ok st v e) s true =
              { shared := s.shared, taskA := .settledOk v, taskB := s.taskB,
                netCalls := s.netCalls } := by
            simp [sysStep, hS, taskStep]
          rw [hstep]
          exact ⟨hn, Or.inr ⟨Or.inl ⟨rfl, hO⟩, hlock, ttl, hcv⟩⟩
      | false =>
          rcases hO with hB | hB
          · have hstep : sysStep cacheId (.ok st v e) (.ok st v e) s false =
                { shared := s.shared, taskA := s.taskA, taskB := .settledOk v,
                  netCalls := s.netCalls } := by
              simp [sysStep, hB, taskStep, hpoll]
            rw [hstep]
            exact ⟨hn, Or.inr ⟨Or.inl ⟨hS, Or.inr rfl⟩, hlock, ttl, hcv⟩⟩
          · have hstep : sysStep cacheId (.ok st v e) (.ok st v e) s false =
                { shared := s.shared, taskA := s.taskA, taskB := .settledOk v,
                  netCalls := s.netCalls } := by
              simp [sysStep, hB, taskStep]
            rw [hstep]
            exact ⟨hn, Or.inr ⟨Or.inl ⟨hS, Or.inr rfl⟩, hlock, ttl, hcv⟩⟩
    · cases c with
      | false =>
          have hstep : sysStep cacheId (.ok st v e) (.ok st v e) s false =
              { shared := s.shared, taskA := s.taskA, taskB := .settledOk v,
                netCalls := s.netCalls } := by
            simp [sysStep, hS, taskStep]
          rw [hstep]
          exact ⟨hn, Or.inr ⟨Or.inr ⟨rfl, hO⟩, hlock, ttl, hcv⟩⟩
      | true =>
          rcases hO with hA | hA
          · have hstep : sysStep cacheId (.ok st v e) (.ok st v e) s true =
                { shared := s.shared, taskA := .settledOk v, taskB := s.taskB,
                  netCalls := s.netCalls } := by
              simp [sysStep, hA, taskStep, hpoll]
            rw [hstep]
            exact ⟨hn, Or.inr ⟨Or.inr ⟨hS, Or.inr rfl⟩, hlock, ttl, hcv⟩⟩
          · have hstep : sysStep cacheId (.ok st v e) (.ok st v e) s true =
                { shared := s.shared, taskA := .settledOk v, taskB := s.taskB,
                  netCalls := s.netCalls } := by
              simp [sysStep, hA, taskStep]
            rw [hstep]
            exact ⟨hn, Or.inr ⟨Or.inr ⟨hS, Or.inr rfl⟩, hlock, ttl, hcv⟩⟩

theorem goodInv_sysRun (cacheId : String) (st : Nat) (v : JsValue) (e : Rat)
    (hst : st = 200 ∨ st = 201) (hv : truthy v = true)
    (herr : truthy (getField v "error") = false) (choices : List Bool) :
    ∀ s : SysState, GoodInv cacheId v s →
      GoodInv cacheId v (sysRun cacheId (.ok st v e) (.ok st v e) s choices) := by
  induction choices with
  | nil => exact fun s h => h
  | cons c cs ih =>
      intro s h
      exact ih _ (goodInv_sysStep cacheId st v e hst hv herr s c h)

theorem goodInv_final (cacheId : String) (v : JsValue) (s : SysState)
    (h : GoodInv cacheId v s) :
    s.netCalls = 1 ∧
    (s.taskA.isDone = true → s.taskB.isDone = true →
      s.taskA = .settledOk v ∧ s.taskB = .settledOk v) := by
  obtain ⟨hn, hcase⟩ := h
  refine ⟨hn, fun hA hB => ?_⟩
  rcases hcase with ⟨hroles, -, -⟩ | ⟨hroles, -, -⟩
  · rcases hroles with ⟨-, hW⟩ | ⟨-, hW⟩
    · rw [hW] at hB
      simp [TaskPhase.isDone] at hB
    · rw [hW] at hA
      simp [TaskPhase.isDone] at hA
  · rcases hroles with ⟨hS, hO⟩ | ⟨hS, hO⟩
    · rcases hO with hO | hO
      · rw [hO] at hB
        simp [TaskPhase.isDone] at hB
      · exact ⟨hS, hO⟩
    · rcases hO with hO | hO
      · rw [hO] at hA
        simp [TaskPhase.isDone] at hA
      · exact ⟨hO, hS⟩

/-- C1 (amended): in the cooperative two-caller model of concurrent GET
calls to doRequest for one fingerprint: (1) for every schedule and every
network behavior, the two tasks are never both in flight — at most one
network call per fingerprint at any instant; (2) when both calls start
before either completes (the two invocation steps come first, in either
order), exactly one network call is issued in total, whatever the network
does — the second caller never issues its own call; (3) when the network
answers 200/201 with a truthy JSON body carrying no truthy error field,
any schedule under which both callers settle makes both resolve to that
same body.  (On error responses the holder rejects while the waiter
resolves from the cache, so the two results can differ: see the
counterexample.) -/
theorem concurrent_dedup_amended :
    (∀ (cacheId : String) (oA oB : FetchOutcome) (choices : List Bool),
      ¬ ((sysRun cacheId oA oB initSys choices).taskA.inFlight = true ∧
         (sysRun cacheId oA oB initSys choices).taskB.inFlight = true)) ∧
    (∀ (cacheId : String) (oA oB : FetchOutcome) (x : Bool) (rest : List Bool),
      (sysRun cacheId oA oB initSys (x :: (!x) :: rest)).netCalls = 1) ∧
    (∀ (cacheId : String) (st : Nat) (v : JsValue) (e : Rat) (x : Bool)
        (rest : List Bool),
      st = 200 ∨ st = 201 → truthy v = true → truthy (getField v "error") = false →
      (sysRun cacheId (.ok st v e) (.ok st v e) initSys (x :: (!x) :: rest)).netCalls = 1 ∧
      ((sysRun cacheId (.ok st v e) (.ok st v e) initSys
          (x :: (!x) :: rest)).taskA.isDone = true →
        (sysRun cacheId (.ok st v e) (.ok st v e) initSys
          (x :: (!x) :: rest)).taskB.isDone = true →
        (sysRun cacheId (.ok st v e) (.ok st v e) initSys
          (x :: (!x) :: rest)).taskA = .settledOk v ∧
        (sysRun cacheId (.ok st v e) (.ok st v e) initSys
          (x :: (!x) :: rest)).taskB = .settledOk v)) := by
  refine ⟨?_, ?_, ?_⟩
  · intro cacheId oA oB choices
    have hinit : MutexInv cacheId initSys := by
      constructor
      · intro hp
        simp [initSys, TaskPhase.inFlight] at hp
      · intro hp
        rcases hp with hp | hp <;> simp [initSys, TaskPhase.inFlight] at hp
    exact (mutexInv_sysRun cacheId oA oB choices initSys hinit).1
  · intro cacheId oA oB x rest
    cases x with
    | true =>
        simp only [Bool.not_true]
        rw [sysRun_cons, sysRun_cons, after_two_true,
          sysRun_no_ready_netCalls cacheId oA oB rest _ (by simp) (by simp)]
    | false =>
        simp only [Bool.not_false]
        rw [sysRun_cons, sysRun_cons, after_two_false,
          sysRun_no_ready_netCalls cacheId oA oB rest _ (by simp) (by simp)]
  · intro cacheId st v e x rest hst hv herr
    have hgood : GoodInv cacheId v
        (sysRun cacheId (.ok st v e) (.ok st v e) initSys (x :: (!x) :: rest)) := by
      cases x with
      | true =>
          simp only [Bool.not_true]
          rw [sysRun_cons, sysRun_cons, after_two_true]
          exact goodInv_sysRun cacheId st v e hst hv herr rest _
            ⟨rfl, Or.inl ⟨Or.inl ⟨Or.inl rfl, rfl⟩, rfl, rfl⟩⟩
      | false =>
          simp only [Bool.not_false]
          rw [sysRun_cons, sysRun_cons, after_two_false]
          exact goodInv_sysRun cacheId st v e hst hv herr rest _
            ⟨rfl, Or.inl ⟨Or.inr ⟨Or.inl rfl, rfl⟩, rfl, rfl⟩⟩
    exact goodInv_final cacheId v _ hgood

/-- C1 witness: two concurrent GET calls, one 300 ms fetch answered 200
with a body; the schedule runs the holder to completion and then the
waiter poll: both callers resolve to the body and one network call was
issued. -/
theorem concurrent_dedup_amended_witness :
    (sysRun "k" (.ok 200 (.obj [("total", .num 100)]) 300)
        (.ok 200 (.obj [("total", .num 100)]) 300) initSys
        [true, false, true, true, false]).taskA =
      .settledOk (.obj [("total", .num 100)]) ∧
    (sysRun "k" (.ok 200 (.obj [("total", .num 100)]) 300)
        (.ok 200 (.obj [("total", .num 100)]) 300) initSys
        [true, false, true, true, false]).taskB =
      .settledOk (.obj [("total", .num 100)]) ∧
    (sysRun "k" (.ok 200 (.obj [("total", .num 100)]) 300)
        (.ok 200 (.obj [("total", .num 100)]) 300) initSys
        [true, false, true, true, false]).netCalls = 1 := by
  have h := concurrent_dedup_amended.2.2 "k" 200 (.obj [("total", .num 100)]) 300
    true [true, true, false] (Or.inl rfl) rfl rfl
  exact ⟨(h.2 rfl rfl).1, (h.2 rfl rfl).2, h.1⟩

/-- C1 counterexample: with the backend answering 500, exactly one
network call is still issued, but the two concurrent callers do not
resolve to the same value: the caller that performed the fetch rejects
with the normalized error, while the waiting caller resolves from the
cache with the error wrapper object. -/
theorem concurrent_dedup_counterexample :
    (sysRun "k" (.ok 500 (.obj [("code", .num 13)]) 300)
        (.ok 500 (.obj [("code", .num 13)]) 300) initSys
        [true, false, true, true, false]).netCalls = 1 ∧
    (sysRun "k" (.ok 500 (.obj [("code", .num 13)]) 300)
        (.ok 500 (.obj [("code", .num 13)]) 300) initSys
        [true, false, true, true, false]).taskA =
      .settledErr (.obj [("code", .num 13)]) ∧
    (sysRun "k" (.ok 500 (.obj [("code", .num 13)]) 300)
        (.ok 500 (.obj [("code", .num 13)]) 300) initSys
        [true, false, true, true, false]).taskA.isResolved = false ∧
    (sysRun "k" (.ok 500 (.obj [("code", .num 13)]) 300)
        (.ok 500 (.obj [("code", .num 13)]) 300) initSys
        [true, false, true, true, false]).taskB =
      .settledOk (.obj [("error", .obj [("code", .num 13)])]) := by
  exact ⟨rfl, rfl, rfl, rfl⟩

/-- C7 witness: the backend responds 200 with body containing
error.code 13; the run rejects with the inner error object and
navigateLogin fires once. -/
theorem session_expiry_side_effect_once_witness :
    (doRequest sampleClient [] "/login" none "POST" 2
        (.ok 200 (.obj [("error", .obj [("code", .num 13)])]) 250)).navigateLoginCount = 1 ∧
    (doRequest sampleClient [] "/login" none "POST" 2
        (.ok 200 (.obj [("error", .obj [("code", .num 13)])]) 250)).outcome =
      .rejected (.obj [("code", .num 13)]) :=
  ⟨session_expiry_side_effect_once sampleClient [] "/login" none "POST" 2
      (.ok 200 (.obj [("error", .obj [("code", .num 13)])]) 250)
      (.obj [("code", .num 13)]) rfl rfl,
   rfl⟩

end TradeApi
